import Mathlib

/-!
Verification of the CRIC-V delivery-analysis pipeline.

Shallow embedding of the analysis code of the repository:
  - `app/analytics/pitch_mapping.py` (line/length zones, wicket score table)
  - `app/analytics/bowling_insights.py` (`wicket_probability`)
  - `app/services/bowling_analyzer.py` (`detect_bowling_arm`,
    `check_icc_compliance`, `generate_coaching_recommendations`,
    `classify_ball_type`, the `is_compliant` report flag)
  - `app/services/ball_detector.py` (`track_ball_trajectory`)
  - `app/services/advanced_ball_detector.py` (`calculate_ball_speed`)
  - `app/api/ball_tracking.py` (`_get_points`, `classify_ball_type`)

Numbers are modelled by `ℚ` where the Python code only compares and does
field arithmetic, and by `ℝ` where a square root occurs (pixel
displacement).  Python dictionaries with known key sets are modelled by
structures with `Option` fields (`none` = key absent); `dict.get` with a
default becomes `Option.getD`.
-/

namespace CricV

/-- A trajectory point: `{"frame": .., "x": .., "y": .., "confidence": ..}`
as built by `track_ball_trajectory` (`ball_detector.py`).  The `points_2d`
schema uses the same shape (extra fields defaulted). -/
structure TrajPoint where
  frame : Nat
  x : ℚ
  y : ℚ
  confidence : ℚ
deriving DecidableEq

/-- The ball-trajectory dictionary.  `track_ball_trajectory` stores the point
list under the key `"trajectory"`; the alternate schema stores it under
`"points_2d"`.  `none` models an absent key. -/
structure BallTraj where
  trajectory : Option (List TrajPoint)
  points_2d : Option (List TrajPoint)
  avg_speed : Option ℝ
  total_frames_with_ball : Option Nat

/-- A bounding box `[x1, y1, x2, y2]` in pixel coordinates. -/
structure Bbox where
  x1 : ℚ
  y1 : ℚ
  x2 : ℚ
  y2 : ℚ
deriving DecidableEq

/-- One per-frame ball detection (`detect_ball_in_video` output element). -/
structure Detection where
  frame : Nat
  bbox : Bbox
  confidence : ℚ
deriving DecidableEq

/-- The ball-type flag record returned by both `classify_ball_type`
implementations. -/
structure BallFlags where
  is_yorker : Bool
  is_bouncer : Bool
  is_full_toss : Bool
deriving DecidableEq

/-- An ICC violation record.  The human-readable `detail` string of the source
(which interpolates the measured angle) carries no rule content and is
omitted; `rule` and `severity` are kept verbatim. -/
structure Violation where
  rule : String
  severity : String
deriving DecidableEq

/-- The `front_foot_landing` sub-dictionary of the metrics map; only its
`is_no_ball` entry is read by the compliance and recommendation code. -/
structure FrontFoot where
  is_no_ball : Bool
deriving DecidableEq

/-- The bowling metrics map, restricted to the keys read by
`check_icc_compliance` and `generate_coaching_recommendations`.
`none` models an absent key (`dict.get` default applies). -/
structure BowlingMetrics where
  elbow_extension : Option ℚ
  front_foot_landing : Option FrontFoot
  swing_type : Option String
  estimated_speed : Option ℚ
deriving DecidableEq

/-- A pose frame, restricted to the `"metrics"` entry read by
`detect_bowling_arm`. -/
structure FrameMetrics where
  right_elbow_angle : Option ℚ
  left_elbow_angle : Option ℚ
deriving DecidableEq

/-- One frame of pose data (`none` = no `"metrics"` key). -/
structure Frame where
  metrics : Option FrameMetrics
deriving DecidableEq

/-- A persisted delivery row, restricted to the columns read by
`wicket_probability` (`bowling_insights.py`). -/
structure Delivery where
  line : Option String
  length : Option String
  speed_kmh : Option ℚ
  swing_angle : Option ℚ
  spin_rpm : Option ℚ

/-! ### Python-semantics helpers -/

/-- Python `min` of a nonempty list given as head and tail. -/
def pyMin (h : ℚ) (t : List ℚ) : ℚ := t.foldl min h

/-- Python `max` of a nonempty list given as head and tail. -/
def pyMax (h : ℚ) (t : List ℚ) : ℚ := t.foldl max h

/-- Python `min(l) if l else d`. -/
def pyMinD (l : List ℚ) (d : ℚ) : ℚ :=
  match l with
  | [] => d
  | h :: t => pyMin h t

/-- The range `max(l) - min(l)` of a list of angles (0 on the empty list,
which the source never reaches). -/
def listRange : List ℚ → ℚ
  | [] => 0
  | h :: t => pyMax h t - pyMin h t

/-- Python `v or d` for a numeric field: `None` and `0` are falsy. -/
def pyOr (v : Option ℚ) (d : ℚ) : ℚ :=
  match v with
  | none => d
  | some x => if x = 0 then d else x

/-! ### `app/analytics/pitch_mapping.py` -/

/-- `classify_line(x)` from `pitch_mapping.py`. -/
def classify_line (x : ℚ) : String :=
  if x < 0.35 then "off"
  else if x < 0.65 then "middle"
  else "leg"

/-- `classify_length(y)` from `pitch_mapping.py`. -/
def classify_length (y : ℚ) : String :=
  if y < 0.2 then "yorker"
  else if y < 0.4 then "full"
  else if y < 0.6 then "good"
  else if y < 0.8 then "short"
  else "bouncer"

/-- `get_line_length_score(line, length)` from `pitch_mapping.py` (the active,
uncommented table): dictionary lookups with default 40, combined as a
0.4/0.6 weighted average. -/
def get_line_length_score (line length : String) : ℚ :=
  let line_score :=
    if line = "off" then 70 else if line = "middle" then 50
    else if line = "leg" then 30 else 40
  let length_score :=
    if length = "yorker" then 90 else if length = "full" then 70
    else if length = "good" then 80 else if length = "short" then 40
    else if length = "bouncer" then 30 else 40
  line_score * 0.4 + length_score * 0.6

/-! ### `app/analytics/bowling_insights.py` -/

/-- `BowlingInsights.wicket_probability(delivery)`: weighted score with each
sub-term clamped, then capped at 100.  Python truthiness (`if delivery.line
and delivery.length`, `delivery.speed_kmh or 120`) is modelled exactly:
`None` and the empty string / zero are falsy. -/
def wicket_probability (d : Delivery) : ℚ :=
  let line_score :=
    match d.line, d.length with
    | some l, some len => if l = "" ∨ len = "" then 30 else get_line_length_score l len
    | _, _ => 30
  let speed := pyOr d.speed_kmh 120
  let speed_factor := min (speed / 150 * 30) 30
  let swing := |pyOr d.swing_angle 0|
  let swing_factor := min (swing / 10 * 20) 20
  let spin := pyOr d.spin_rpm 0
  let spin_factor := min (spin / 1000 * 20) 20
  min (line_score * 0.4 + speed_factor + swing_factor + spin_factor) 100

/-! ### `app/services/bowling_analyzer.py`: compliance and recommendations -/

/-- `self.ICC_ELBOW_EXTENSION_LIMIT` (degrees, Law 21.3). -/
def ICC_ELBOW_EXTENSION_LIMIT : ℚ := 15

/-- The high-severity elbow violation appended when the extension exceeds the
ICC limit. -/
def highElbowViol : Violation := ⟨"Law 21.3 - Illegal Bowling Action", "high"⟩

/-- The medium-severity elbow warning appended when the extension exceeds 80%
of the ICC limit. -/
def warnElbowViol : Violation := ⟨"Law 21.3 - Warning", "medium"⟩

/-- The medium-severity front-foot no-ball violation. -/
def noBallViol : Violation := ⟨"Law 24.5 - No Ball", "medium"⟩

/-- `BowlingAnalyzer.check_icc_compliance(metrics, bowling_arm)`: the elbow
band (strict `>` comparisons, `elif` chaining) followed by the front-foot
check, appending in rule order.  Total: absent keys default to `0` / `{}` /
`False`, so nothing is raised. -/
def check_icc_compliance (m : BowlingMetrics) : List Violation :=
  let elbow_extension := m.elbow_extension.getD 0
  (if elbow_extension > ICC_ELBOW_EXTENSION_LIMIT then [highElbowViol]
   else if elbow_extension > ICC_ELBOW_EXTENSION_LIMIT * 0.8 then [warnElbowViol]
   else [])
  ++ (if (m.front_foot_landing.getD ⟨false⟩).is_no_ball then [noBallViol] else [])

/-- The `is_compliant` flag of the report assembled by
`analyze_bowling_action`: `len(violations) == 0`. -/
def is_compliant (m : BowlingMetrics) : Bool :=
  (check_icc_compliance m).length == 0

/-- The generic fallback recommendation appended when the violation list is
empty. -/
def compliantRec : String := "🎯 Action is ICC compliant - focus on consistency"

/-- `BowlingAnalyzer.generate_coaching_recommendations(metrics, violations)`:
each rule appends its statements independently, in source order. -/
def generate_coaching_recommendations (m : BowlingMetrics) (violations : List Violation) :
    List String :=
  let elbow_ext := m.elbow_extension.getD 0
  let front_nb := (m.front_foot_landing.getD ⟨false⟩).is_no_ball
  let swing_type := m.swing_type.getD ""
  let speed := m.estimated_speed.getD 0
  (if elbow_ext > 12 then
      ["⚠️ Work on maintaining a straighter arm through delivery",
       "💡 Practice with a brace to limit elbow flexion"]
   else if elbow_ext < 5 then
      ["✅ Excellent elbow extension - within legal limits"]
   else [])
  ++ (if front_nb then
      ["🚫 Front foot landing needs adjustment to avoid no-balls",
       "💡 Practice landing with toe behind the crease line"]
     else [])
  ++ (if swing_type = "in_swing" then
      ["🔄 In-swing detected - maintain upright seam position"]
     else if swing_type = "out_swing" then
      ["🔄 Out-swing detected - work on late swing"]
     else [])
  ++ (if violations = [] then [compliantRec] else [])
  ++ (if speed > 0 then
        (if speed < 120 then
          ["⚡ Work on generating more pace through hip drive"]
         else if speed > 140 then
          ["⚡ Excellent pace - focus on accuracy"]
         else [])
      else [])

/-! ### `app/services/bowling_analyzer.py`: arm detection -/

/-- The per-frame right-elbow angle series collected by
`detect_bowling_arm` (frames with a `"metrics"` entry, angle defaulted
to 0). -/
def rightAngles (frames : List Frame) : List ℚ :=
  (frames.filterMap Frame.metrics).map (fun m => m.right_elbow_angle.getD 0)

/-- The per-frame left-elbow angle series collected by `detect_bowling_arm`. -/
def leftAngles (frames : List Frame) : List ℚ :=
  (frames.filterMap Frame.metrics).map (fun m => m.left_elbow_angle.getD 0)

/-- `BowlingAnalyzer.detect_bowling_arm(frames)`: compares the two elbow-angle
ranges when both series are nonempty; strict `> 1.5×` comparisons;
defaults to `"right"`. -/
def detect_bowling_arm (frames : List Frame) : String :=
  match rightAngles frames, leftAngles frames with
  | r :: rs, l :: ls =>
    let right_range := pyMax r rs - pyMin r rs
    let left_range := pyMax l ls - pyMin l ls
    if right_range > left_range * 1.5 then "right"
    else if left_range > right_range * 1.5 then "left"
    else "right"
  | _, _ => "right"

/-! ### Ball tracking and speed -/

/-- Ascending duplicate-free insertion into a sorted list of frame
numbers. -/
def insertKey (n : Nat) : List Nat → List Nat
  | [] => [n]
  | m :: ms => if n < m then n :: m :: ms else if n = m then m :: ms else m :: insertKey n ms

/-- `sorted(frames_dict.keys())`: the distinct frame numbers of the
detections, in ascending order. -/
def sortedFrameKeys (dets : List Detection) : List Nat :=
  (dets.map Detection.frame).foldl (fun acc n => insertKey n acc) []

/-- Pixel displacements between consecutive trajectory points:
`sqrt(dx**2 + dy**2)` for each adjacent pair (the loop shared by
`track_ball_trajectory` and `calculate_ball_speed`).  The squared length is
computed in `ℚ` and the square root taken in `ℝ`. -/
noncomputable def displacements (ps : List TrajPoint) : List ℝ :=
  (ps.zip ps.tail).map
    (fun pq => Real.sqrt (((pq.2.x - pq.1.x) ^ 2 + (pq.2.y - pq.1.y) ^ 2 : ℚ) : ℝ))

/-- `BallDetector.track_ball_trajectory` (`ball_detector.py`), starting from
the detection list (video decoding and the YOLO model are external
collaborators): group by frame, keep the most confident detection per frame
(Python `max` keeps the first of equal maxima), take bounding-box centers,
and return the dict with keys `"trajectory"`, `"avg_speed"` and
`"total_frames_with_ball"` — and no `"points_2d"` key. -/
noncomputable def track_ball_trajectory (dets : List Detection) : BallTraj :=
  let traj := (sortedFrameKeys dets).filterMap (fun n =>
    match dets.filter (fun d => d.frame = n) with
    | [] => none
    | d :: ds =>
      let best := ds.foldl (fun acc x => if acc.confidence < x.confidence then x else acc) d
      some ⟨n, (best.bbox.x1 + best.bbox.x2) / 2, (best.bbox.y1 + best.bbox.y2) / 2,
            best.confidence⟩)
  let speeds := displacements traj
  let avg : ℝ := if 1 < traj.length then (if speeds.isEmpty then 0 else speeds.sum / speeds.length) else 0
  ⟨some traj, none, some avg, some traj.length⟩

/-- The point list used by `calculate_ball_speed`
(`advanced_ball_detector.py`):
`ball_trajectory.get("trajectory") or ball_trajectory.get("points_2d") or []`
— Python `or` falls through on `None` and on an empty list.  The leading
`if not ball_trajectory` guard of the source is subsumed: an empty dict
yields `[]` here and hence speed 0. -/
def pointsForSpeed (t : BallTraj) : List TrajPoint :=
  match t.trajectory with
  | some (p :: ps) => p :: ps
  | _ =>
    match t.points_2d with
    | some (p :: ps) => p :: ps
    | _ => []

/-- Python `round(x, 1)` idealized over `ℝ`: round to one decimal, ties to
even (bankers rounding, as the Python `round` builtin). -/
noncomputable def pyRound1 (x : ℝ) : ℝ :=
  let n : ℤ := ⌊x * 10⌋
  let f : ℝ := x * 10 - n
  let r : ℤ := if f < 1 / 2 then n else if 1 / 2 < f then n + 1
               else if n % 2 = 0 then n else n + 1
  (r : ℝ) / 10

/-- `AdvancedBallDetector.calculate_ball_speed(ball_trajectory)`
(`advanced_ball_detector.py`): average consecutive displacement in pixels
per frame, converted to m/s via `fps` and `pixels_per_meter`, to km/h via
`* 3.6`, rounded to one decimal.  Returns 0 with fewer than two points. -/
noncomputable def calculate_ball_speed (fps ppm : ℚ) (t : BallTraj) : ℝ :=
  let points := pointsForSpeed t
  if points.length < 2 then 0
  else
    let ds := displacements points
    if ds.isEmpty then 0
    else pyRound1 (ds.sum / (ds.length : ℝ) * (fps : ℝ) / (ppm : ℝ) * 3.6)

/-! ### The two `classify_ball_type` implementations -/

namespace BallTracking

/-- `_get_points(trajectory)` from `app/api/ball_tracking.py`:
`trajectory.get("points_2d") or trajectory.get("trajectory") or []`. -/
def get_points (t : BallTraj) : List TrajPoint :=
  match t.points_2d with
  | some (p :: ps) => p :: ps
  | _ =>
    match t.trajectory with
    | some (p :: ps) => p :: ps
    | _ => []

/-- `classify_ball_type(trajectory, speed)` from `app/api/ball_tracking.py`:
minimum height among the points after the first five, banded by strict
comparisons in an `elif` chain. -/
def classify_ball_type (t : BallTraj) (speed : ℝ) : BallFlags :=
  let points := get_points t
  if points.length < 10 then ⟨false, false, false⟩
  else
    let heights := (points.drop 5).map TrajPoint.y
    let min_height := pyMinD heights 1
    if min_height < 0.2 then ⟨true, false, false⟩
    else if min_height > 0.8 then ⟨false, true, false⟩
    else if min_height > 0.4 then ⟨false, false, true⟩
    else ⟨false, false, false⟩

end BallTracking

namespace BowlingAnalyzer

/-- `BowlingAnalyzer.classify_ball_type(trajectory, speed)`
(`bowling_analyzer.py`): identical banding, but the guard
`if not trajectory or "points_2d" not in trajectory` reads only the
`"points_2d"` key — a dict holding its points under `"trajectory"` (as
`track_ball_trajectory` produces) falls through to the all-false record. -/
def classify_ball_type (t : BallTraj) (speed : ℝ) : BallFlags :=
  match t.points_2d with
  | none => ⟨false, false, false⟩
  | some points =>
    if points.length < 10 then ⟨false, false, false⟩
    else
      let heights := (points.drop 5).map TrajPoint.y
      match heights with
      | [] => ⟨false, false, false⟩
      | h :: hs =>
        let min_height := pyMin h hs
        if min_height < 0.2 then ⟨true, false, false⟩
        else if min_height > 0.8 then ⟨false, true, false⟩
        else if min_height > 0.4 then ⟨false, false, true⟩
        else ⟨false, false, false⟩

end BowlingAnalyzer

/-! ### Concrete inputs used to evaluate the embedded code -/

/-- Twelve detections, one per frame, whose bounding-box centers sit at
constant height `y = 0.05` and advance 40 pixels per frame. -/
def dets12 : List Detection :=
  [⟨0, ⟨-5, 0, 5, 1/10⟩, 1⟩, ⟨1, ⟨35, 0, 45, 1/10⟩, 1⟩, ⟨2, ⟨75, 0, 85, 1/10⟩, 1⟩,
   ⟨3, ⟨115, 0, 125, 1/10⟩, 1⟩, ⟨4, ⟨155, 0, 165, 1/10⟩, 1⟩, ⟨5, ⟨195, 0, 205, 1/10⟩, 1⟩,
   ⟨6, ⟨235, 0, 245, 1/10⟩, 1⟩, ⟨7, ⟨275, 0, 285, 1/10⟩, 1⟩, ⟨8, ⟨315, 0, 325, 1/10⟩, 1⟩,
   ⟨9, ⟨355, 0, 365, 1/10⟩, 1⟩, ⟨10, ⟨395, 0, 405, 1/10⟩, 1⟩, ⟨11, ⟨435, 0, 445, 1/10⟩, 1⟩]

/-- The trajectory points `track_ball_trajectory` computes from `dets12`. -/
def pts12 : List TrajPoint :=
  [⟨0, 0, 1/20, 1⟩, ⟨1, 40, 1/20, 1⟩, ⟨2, 80, 1/20, 1⟩, ⟨3, 120, 1/20, 1⟩,
   ⟨4, 160, 1/20, 1⟩, ⟨5, 200, 1/20, 1⟩, ⟨6, 240, 1/20, 1⟩, ⟨7, 280, 1/20, 1⟩,
   ⟨8, 320, 1/20, 1⟩, ⟨9, 360, 1/20, 1⟩, ⟨10, 400, 1/20, 1⟩, ⟨11, 440, 1/20, 1⟩]

/-- A 12-point trajectory at constant height `y`, stored under the
`points_2d` key. -/
def constTraj (y : ℚ) : BallTraj :=
  ⟨none,
   some [⟨0, 0, y, 1⟩, ⟨1, 1, y, 1⟩, ⟨2, 2, y, 1⟩, ⟨3, 3, y, 1⟩, ⟨4, 4, y, 1⟩, ⟨5, 5, y, 1⟩,
         ⟨6, 6, y, 1⟩, ⟨7, 7, y, 1⟩, ⟨8, 8, y, 1⟩, ⟨9, 9, y, 1⟩, ⟨10, 10, y, 1⟩, ⟨11, 11, y, 1⟩],
   none, none⟩

/-- A 5-point trajectory (too short for ball-type classification). -/
def shortTraj : BallTraj :=
  ⟨none, some [⟨0, 0, 0, 1⟩, ⟨1, 1, 0, 1⟩, ⟨2, 2, 0, 1⟩, ⟨3, 3, 0, 1⟩, ⟨4, 4, 0, 1⟩],
   none, none⟩

/-- A two-point trajectory with a 3-pixel displacement. -/
def twoPtTraj : BallTraj :=
  ⟨some [⟨0, 0, 0, 1⟩, ⟨1, 3, 0, 1⟩], none, none, none⟩

/-! ## Helper lemmas -/

lemma foldl_min_le_foldl_max (t : List ℚ) : ∀ a b : ℚ, a ≤ b →
    t.foldl min a ≤ t.foldl max b := by
  induction t with
  | nil => intro a b h; simpa using h
  | cons x xs ih =>
    intro a b h
    exact ih _ _ (le_trans (min_le_left a x) (le_trans h (le_max_left b x)))

lemma pyRange_nonneg (h : ℚ) (t : List ℚ) : 0 ≤ pyMax h t - pyMin h t :=
  sub_nonneg.mpr (foldl_min_le_foldl_max t h h le_rfl)

/-! ## C6: line and length zones partition the coordinate axis -/

set_option maxHeartbeats 2000000 in
/-- C6: `classify_line` and `classify_length` are total and their zones
partition the axis exhaustively and disjointly: every `x` (in particular
every `x` in `[0,1)`) lands in exactly one line zone — `x < 0.35` in `off`,
`0.35 ≤ x < 0.65` in `middle`, `0.65 ≤ x` in `leg` — and every `y` in
exactly one length zone — `y < 0.2` yorker, `< 0.4` full, `< 0.6` good,
`< 0.8` short, else bouncer. -/
theorem line_length_partition (x y : ℚ) :
    (classify_line x = "off" ↔ x < 0.35)
    ∧ (classify_line x = "middle" ↔ 0.35 ≤ x ∧ x < 0.65)
    ∧ (classify_line x = "leg" ↔ 0.65 ≤ x)
    ∧ (classify_length y = "yorker" ↔ y < 0.2)
    ∧ (classify_length y = "full" ↔ 0.2 ≤ y ∧ y < 0.4)
    ∧ (classify_length y = "good" ↔ 0.4 ≤ y ∧ y < 0.6)
    ∧ (classify_length y = "short" ↔ 0.6 ≤ y ∧ y < 0.8)
    ∧ (classify_length y = "bouncer" ↔ 0.8 ≤ y) := by
  unfold classify_line classify_length
  split_ifs with h1 h2 h3 h4 h5 h6 h7 <;>
    refine ⟨?_, ?_, ?_, ?_, ?_, ?_, ?_, ?_⟩ <;>
    first
      | exact iff_of_true rfl (by first | assumption | linarith | exact ⟨by linarith, by linarith⟩)
      | exact iff_of_false (by decide)
          (by first
                | assumption
                | (intro hx; linarith))

/-! ## C2: elbow-extension boundary values -/

/-- C2 counterexample: the claim asserts that an extension of exactly 15.0°
is treated as compliant and produces no violation.  On the code, 15.0 fails
the strict `> 15` high-severity test but passes the `> 12` warning test, so
`check_icc_compliance` returns the medium warning and the report is not
compliant. -/
theorem elbow_boundary_15_counterexample :
    check_icc_compliance ⟨some 15, none, none, none⟩ ≠ []
    ∧ check_icc_compliance ⟨some 15, none, none, none⟩ = [warnElbowViol]
    ∧ is_compliant ⟨some 15, none, none, none⟩ = false := by
  have h : check_icc_compliance ⟨some 15, none, none, none⟩ = [warnElbowViol] := by
    norm_num [check_icc_compliance, ICC_ELBOW_EXTENSION_LIMIT]
  exact ⟨by simp [h], h, by simp [is_compliant, h]⟩

/-- C2 (amended): 14.9° yields the medium warning, 15.1° the high violation,
15.01° the high violation, and exactly 15.0° yields the medium warning —
not the high violation (strict `>`), but not an empty violation list
either. -/
theorem elbow_boundary_values :
    check_icc_compliance ⟨some 14.9, none, none, none⟩ = [warnElbowViol]
    ∧ check_icc_compliance ⟨some 15.1, none, none, none⟩ = [highElbowViol]
    ∧ check_icc_compliance ⟨some 15, none, none, none⟩ = [warnElbowViol]
    ∧ check_icc_compliance ⟨some 15.01, none, none, none⟩ = [highElbowViol] := by
  refine ⟨?_, ?_, ?_, ?_⟩ <;> norm_num [check_icc_compliance, ICC_ELBOW_EXTENSION_LIMIT]

/-! ## C8: bowling-arm detection -/

/-- C8 counterexample: the claim says the arm whose range exceeds the
range of the other by at least 50% (`≥ 1.5×`) is returned.  With a left range of
exactly 1.5 times the right range (15 vs 10), the strict `>` of the code
comparison fails and `"right"` is returned, not `"left"`. -/
theorem detect_bowling_arm_tie_counterexample :
    detect_bowling_arm [⟨some ⟨some 0, some 0⟩⟩, ⟨some ⟨some 10, some 15⟩⟩] = "right"
    ∧ listRange (leftAngles [⟨some ⟨some 0, some 0⟩⟩, ⟨some ⟨some 10, some 15⟩⟩])
        = 1.5 * listRange (rightAngles [⟨some ⟨some 0, some 0⟩⟩, ⟨some ⟨some 10, some 15⟩⟩]) := by
  constructor
  · norm_num [detect_bowling_arm, rightAngles, leftAngles, pyMax, pyMin, max_def, min_def,
      List.filterMap_cons, List.foldl_cons, List.foldl_nil]
  · norm_num [listRange, rightAngles, leftAngles, pyMax, pyMin, max_def, min_def,
      List.filterMap_cons, List.foldl_cons, List.foldl_nil]

/-- C8 (amended): `detect_bowling_arm` returns `"left"` exactly when both
angle series are nonempty and the left range strictly exceeds 1.5 times
the right range (more than 50% larger, not at-least); in every other case,
including missing angle data and ties at exactly 1.5×, it returns
`"right"`. -/
theorem detect_bowling_arm_characterization (frames : List Frame) :
    (detect_bowling_arm frames = "left" ↔
      rightAngles frames ≠ [] ∧ leftAngles frames ≠ [] ∧
        listRange (rightAngles frames) * 1.5 < listRange (leftAngles frames))
    ∧ (detect_bowling_arm frames = "left" ∨ detect_bowling_arm frames = "right") := by
  unfold detect_bowling_arm
  rcases hr : rightAngles frames with _ | ⟨r, rs⟩ <;>
    rcases hl : leftAngles frames with _ | ⟨l, ls⟩
  · refine ⟨⟨fun h => ?_, fun h => absurd rfl h.1⟩, Or.inr rfl⟩
    simp at h
  · refine ⟨⟨fun h => ?_, fun h => absurd rfl h.1⟩, Or.inr rfl⟩
    simp at h
  · refine ⟨⟨fun h => ?_, fun h => absurd rfl h.2.1⟩, Or.inr rfl⟩
    simp at h
  · simp only [listRange]
    have hRR : 0 ≤ pyMax r rs - pyMin r rs := pyRange_nonneg r rs
    have hLL : 0 ≤ pyMax l ls - pyMin l ls := pyRange_nonneg l ls
    split_ifs with h1 h2
    · refine ⟨⟨fun h => absurd h (by decide), fun h => ?_⟩, Or.inr rfl⟩
      have := h.2.2
      linarith
    · exact ⟨⟨fun _ => ⟨List.cons_ne_nil _ _, List.cons_ne_nil _ _, h2⟩, fun _ => rfl⟩,
        Or.inl rfl⟩
    · refine ⟨⟨fun h => absurd h (by decide), fun h => absurd h.2.2 h2⟩, Or.inr rfl⟩

/-! ## C1: the ICC compliance engine -/

/-- C1: `check_icc_compliance` evaluates its rules in fixed order (elbow
band, then front foot).  Elbow extension above 15° yields exactly one
high-severity violation at the head of the list; extension in `(12, 15]`
yields exactly one medium-severity warning instead (the bands are mutually
exclusive, only the first fires); extension at or below 12° yields no elbow
violation; a front-foot `is_no_ball` flag appends one medium no-ball
violation at the tail.  The report flag `is_compliant` holds iff the
violation list is empty, and metrics with missing elbow and front-foot data
yield the empty list (compliant by default).  The embedded function is
total, so no exception is possible. -/
theorem check_icc_compliance_rule_bands (m : BowlingMetrics) :
    (ICC_ELBOW_EXTENSION_LIMIT < m.elbow_extension.getD 0 →
      check_icc_compliance m =
        highElbowViol ::
          (if (m.front_foot_landing.getD ⟨false⟩).is_no_ball then [noBallViol] else []))
    ∧ (12 < m.elbow_extension.getD 0 ∧ m.elbow_extension.getD 0 ≤ ICC_ELBOW_EXTENSION_LIMIT →
      check_icc_compliance m =
        warnElbowViol ::
          (if (m.front_foot_landing.getD ⟨false⟩).is_no_ball then [noBallViol] else []))
    ∧ (m.elbow_extension.getD 0 ≤ 12 →
      check_icc_compliance m =
        (if (m.front_foot_landing.getD ⟨false⟩).is_no_ball then [noBallViol] else []))
    ∧ (is_compliant m = true ↔ check_icc_compliance m = [])
    ∧ (m.elbow_extension = none → m.front_foot_landing = none →
        check_icc_compliance m = []) := by
  have hlim : ICC_ELBOW_EXTENSION_LIMIT * 0.8 = 12 := by
    norm_num [ICC_ELBOW_EXTENSION_LIMIT]
  refine ⟨?_, ?_, ?_, ?_, ?_⟩
  · intro h
    simp only [check_icc_compliance]
    rw [if_pos h]
    rfl
  · rintro ⟨h1, h2⟩
    simp only [check_icc_compliance, hlim]
    rw [if_neg (not_lt.mpr h2), if_pos h1]
    rfl
  · intro h
    have h15 : ¬ m.elbow_extension.getD 0 > ICC_ELBOW_EXTENSION_LIMIT := by
      rw [not_lt, ICC_ELBOW_EXTENSION_LIMIT.eq_def]
      linarith
    simp only [check_icc_compliance, hlim]
    rw [if_neg h15, if_neg (not_lt.mpr h)]
    rfl
  · simp [is_compliant, List.length_eq_zero]
  · intro h1 h2
    norm_num [check_icc_compliance, h1, h2, ICC_ELBOW_EXTENSION_LIMIT]

/-- Witness for C1: the three bands and the default at concrete metrics. -/
theorem check_icc_compliance_rule_bands_witness :
    check_icc_compliance ⟨some 16, some ⟨true⟩, none, none⟩ = [highElbowViol, noBallViol]
    ∧ check_icc_compliance ⟨some 13, none, none, none⟩ = [warnElbowViol]
    ∧ check_icc_compliance ⟨some 5, some ⟨true⟩, none, none⟩ = [noBallViol]
    ∧ check_icc_compliance ⟨none, none, none, none⟩ = [] := by
  refine ⟨?_, ?_, ?_, ?_⟩
  · have h := (check_icc_compliance_rule_bands ⟨some 16, some ⟨true⟩, none, none⟩).1
      (by norm_num [ICC_ELBOW_EXTENSION_LIMIT])
    simpa using h
  · have h := (check_icc_compliance_rule_bands ⟨some 13, none, none, none⟩).2.1
      (by norm_num [ICC_ELBOW_EXTENSION_LIMIT])
    simpa using h
  · have h := (check_icc_compliance_rule_bands ⟨some 5, some ⟨true⟩, none, none⟩).2.2.1
      (by norm_num)
    simpa using h
  · exact (check_icc_compliance_rule_bands ⟨none, none, none, none⟩).2.2.2.2 rfl rfl

/-! ## C9: coaching recommendations are never empty -/

lemma check_nonempty_cases (m : BowlingMetrics)
    (h : check_icc_compliance m ≠ []) :
    12 < m.elbow_extension.getD 0 ∨
      (m.front_foot_landing.getD ⟨false⟩).is_no_ball = true := by
  by_contra hc
  push_neg at hc
  obtain ⟨h1, h2⟩ := hc
  apply h
  have hL : ICC_ELBOW_EXTENSION_LIMIT = 15 := rfl
  simp only [check_icc_compliance]
  split_ifs <;>
    first
      | rfl
      | (exfalso
         first
           | exact h2 (by assumption)
           | linarith)

/-- C9: for every metrics map, feeding the output of `check_icc_compliance`
into `generate_coaching_recommendations` yields at least one
recommendation; when the violation list is empty the generic
compliant/consistency statement is present, and when a violation exists the
list is still nonempty but consists of specific recommendations only (the
generic statement is absent). -/
theorem coaching_recommendations_nonempty (m : BowlingMetrics) :
    1 ≤ (generate_coaching_recommendations m (check_icc_compliance m)).length
    ∧ (check_icc_compliance m = [] →
        compliantRec ∈ generate_coaching_recommendations m (check_icc_compliance m))
    ∧ (check_icc_compliance m ≠ [] →
        compliantRec ∉ generate_coaching_recommendations m (check_icc_compliance m)) := by
  by_cases hv : check_icc_compliance m = []
  · have hmem : compliantRec ∈ generate_coaching_recommendations m (check_icc_compliance m) := by
      rw [hv]
      simp [generate_coaching_recommendations, List.mem_append]
    refine ⟨by have := List.length_pos_of_mem hmem; omega, fun _ => hmem,
      fun hne => absurd hv hne⟩
  · have hnot : compliantRec ∉ generate_coaching_recommendations m (check_icc_compliance m) := by
      intro hmem2
      simp only [generate_coaching_recommendations, List.mem_append] at hmem2
      rcases hmem2 with ((((hx | hx) | hx) | hx) | hx) <;>
        revert hx <;>
        split_ifs <;>
        intro hx <;>
        first
          | exact absurd hx (by decide)
          | exact hv (by assumption)
    rcases check_nonempty_cases m hv with h12 | hnb
    · have hmem : "⚠️ Work on maintaining a straighter arm through delivery" ∈
          generate_coaching_recommendations m (check_icc_compliance m) := by
        simp [generate_coaching_recommendations, List.mem_append, h12]
      exact ⟨by have := List.length_pos_of_mem hmem; omega, fun he => absurd he hv,
        fun _ => hnot⟩
    · have hmem : "🚫 Front foot landing needs adjustment to avoid no-balls" ∈
          generate_coaching_recommendations m (check_icc_compliance m) := by
        simp [generate_coaching_recommendations, List.mem_append, hnb]
      exact ⟨by have := List.length_pos_of_mem hmem; omega, fun he => absurd he hv,
        fun _ => hnot⟩

/-- Witness for C9: a compliant metrics map keeps the generic statement; a
violating one yields a nonempty list without it. -/
theorem coaching_recommendations_nonempty_witness :
    1 ≤ (generate_coaching_recommendations ⟨none, none, none, none⟩
        (check_icc_compliance ⟨none, none, none, none⟩)).length
    ∧ compliantRec ∈ generate_coaching_recommendations ⟨none, none, none, none⟩
        (check_icc_compliance ⟨none, none, none, none⟩)
    ∧ compliantRec ∉ generate_coaching_recommendations ⟨some 16, none, none, none⟩
        (check_icc_compliance ⟨some 16, none, none, none⟩) := by
  have hnil : check_icc_compliance ⟨none, none, none, none⟩ = [] := by
    norm_num [check_icc_compliance, ICC_ELBOW_EXTENSION_LIMIT]
  have hne : check_icc_compliance ⟨some 16, none, none, none⟩ ≠ [] := by
    norm_num [check_icc_compliance, ICC_ELBOW_EXTENSION_LIMIT]
  exact ⟨(coaching_recommendations_nonempty _).1,
    (coaching_recommendations_nonempty _).2.1 hnil,
    (coaching_recommendations_nonempty _).2.2 hne⟩

/-! ## C5: ball-type classification bands -/

/-- C5: `classify_ball_type` (the `ball_tracking.py` engine, identical in
banding to the `BowlingAnalyzer` copy) computes the minimum height among
the points after the first five and maps it through mutually exclusive
bands: `< 0.2` yorker, `> 0.8` bouncer, `(0.4, 0.8]` full toss, `[0.2,
0.4]` none of the three; with fewer than 10 points all three flags are
false; at most one flag is ever set. -/
theorem classify_ball_type_bands (t : BallTraj) (s : ℝ) :
    ((BallTracking.get_points t).length < 10 →
      BallTracking.classify_ball_type t s = ⟨false, false, false⟩)
    ∧ (10 ≤ (BallTracking.get_points t).length →
        (pyMinD (((BallTracking.get_points t).drop 5).map TrajPoint.y) 1 < 0.2 →
          BallTracking.classify_ball_type t s = ⟨true, false, false⟩)
        ∧ (0.8 < pyMinD (((BallTracking.get_points t).drop 5).map TrajPoint.y) 1 →
          BallTracking.classify_ball_type t s = ⟨false, true, false⟩)
        ∧ (0.4 < pyMinD (((BallTracking.get_points t).drop 5).map TrajPoint.y) 1 ∧
            pyMinD (((BallTracking.get_points t).drop 5).map TrajPoint.y) 1 ≤ 0.8 →
          BallTracking.classify_ball_type t s = ⟨false, false, true⟩)
        ∧ (0.2 ≤ pyMinD (((BallTracking.get_points t).drop 5).map TrajPoint.y) 1 ∧
            pyMinD (((BallTracking.get_points t).drop 5).map TrajPoint.y) 1 ≤ 0.4 →
          BallTracking.classify_ball_type t s = ⟨false, false, false⟩))
    ∧ BallTracking.classify_ball_type t s ∈
        ([⟨false, false, false⟩, ⟨true, false, false⟩, ⟨false, true, false⟩,
          ⟨false, false, true⟩] : List BallFlags) := by
  refine ⟨?_, ?_, ?_⟩
  · intro h
    simp only [BallTracking.classify_ball_type]
    rw [if_pos h]
  · intro hlen
    refine ⟨?_, ?_, ?_, ?_⟩
    · intro hband
      simp only [BallTracking.classify_ball_type]
      rw [if_neg (not_lt.mpr hlen), if_pos hband]
    · intro hband
      simp only [BallTracking.classify_ball_type]
      rw [if_neg (not_lt.mpr hlen), if_neg (by linarith), if_pos hband]
    · rintro ⟨hb1, hb2⟩
      simp only [BallTracking.classify_ball_type]
      rw [if_neg (not_lt.mpr hlen), if_neg (by linarith), if_neg (not_lt.mpr hb2),
        if_pos hb1]
    · rintro ⟨hb1, hb2⟩
      simp only [BallTracking.classify_ball_type]
      rw [if_neg (not_lt.mpr hlen), if_neg (not_lt.mpr hb1), if_neg (by linarith),
        if_neg (by linarith)]
  · simp only [BallTracking.classify_ball_type]
    split_ifs <;> simp

/-- Witness for C5: the four bands and the short-trajectory default, each at
a concrete 12-point (resp. 5-point) trajectory. -/
theorem classify_ball_type_bands_witness :
    BallTracking.classify_ball_type (constTraj 0.05) 0 = ⟨true, false, false⟩
    ∧ BallTracking.classify_ball_type (constTraj 0.9) 0 = ⟨false, true, false⟩
    ∧ BallTracking.classify_ball_type (constTraj 0.6) 0 = ⟨false, false, true⟩
    ∧ BallTracking.classify_ball_type (constTraj 0.3) 0 = ⟨false, false, false⟩
    ∧ BallTracking.classify_ball_type shortTraj 0 = ⟨false, false, false⟩ := by
  refine ⟨((classify_ball_type_bands (constTraj 0.05) 0).2.1 ?_).1 ?_,
    ((classify_ball_type_bands (constTraj 0.9) 0).2.1 ?_).2.1 ?_,
    ((classify_ball_type_bands (constTraj 0.6) 0).2.1 ?_).2.2.1 ?_,
    ((classify_ball_type_bands (constTraj 0.3) 0).2.1 ?_).2.2.2 ?_,
    (classify_ball_type_bands shortTraj 0).1 ?_⟩ <;>
  norm_num [BallTracking.get_points, constTraj, shortTraj, pyMinD, pyMin, min_def,
    List.foldl_cons, List.foldl_nil]

/-! ## C7: the composite wicket-probability score -/

lemma pyOr_zero (v : Option ℚ) : pyOr v 0 = v.getD 0 := by
  cases v with
  | none => rfl
  | some x =>
    by_cases hx : x = 0
    · simp [pyOr, hx]
    · simp [pyOr, hx]

/-- C7 counterexample: the claim says that for *every* delivery the score is
`0.4×pitch + min(speed/150×30, 30) + min(|swing|/10×20, 20) +
min(spin/1000×20, 20)` capped at 100.  On a delivery whose recorded speed is
0 (a value the pipeline really produces: `calculate_ball_speed` returns 0.0
for short trajectories), the claimed formula yields `min(76×0.4 + 0 + 0 +
0, 100) = 30.4`, but the code substitutes 120 for the falsy speed
(`delivery.speed_kmh or 120`), giving a speed factor of 24 and a total of
54.4. -/
theorem wicket_probability_zero_speed_counterexample :
    wicket_probability ⟨some "off", some "good", some 0, some 0, some 0⟩ = 54.4
    ∧ wicket_probability ⟨some "off", some "good", some 0, some 0, some 0⟩ ≠
        min (get_line_length_score "off" "good" * 0.4 + min ((0 : ℚ) / 150 * 30) 30
          + min (|(0 : ℚ)| / 10 * 20) 20 + min ((0 : ℚ) / 1000 * 20) 20) 100 := by
  have hsc : get_line_length_score "off" "good" = 76 := by
    norm_num [get_line_length_score,
      show ("good" : String) ≠ "yorker" from by decide,
      show ("good" : String) ≠ "full" from by decide]
  have hval : wicket_probability ⟨some "off", some "good", some 0, some 0, some 0⟩ = 54.4 := by
    simp only [wicket_probability, pyOr]
    rw [if_neg (by decide : ¬(("off" : String) = "" ∨ ("good" : String) = "")), hsc]
    norm_num [min_def]
  refine ⟨hval, ?_⟩
  rw [hval, hsc]
  norm_num [min_def]

/-- C7 (amended): for every delivery, the composite wicket-probability score
equals `0.4 × S + min(speed/150×30, 30) + min(|swing|/10×20, 20) +
min(spin/1000×20, 20)` capped at 100, with each sub-term independently
clamped before summing, where the effective inputs carry the defaults of
the code: `S` is the line/length pitch score when both zone strings are
present and nonempty and a flat 30 otherwise, `speed` is the recorded speed
when present and nonzero and 120 otherwise, and `swing` and `spin` default
to 0 when absent. -/
theorem wicket_probability_total (d : Delivery) :
    wicket_probability d =
      min ((match d.line, d.length with
            | some l, some len => if l = "" ∨ len = "" then 30 else get_line_length_score l len
            | _, _ => 30) * 0.4
        + min ((if d.speed_kmh.getD 0 = 0 then 120 else d.speed_kmh.getD 0) / 150 * 30) 30
        + min (|d.swing_angle.getD 0| / 10 * 20) 20
        + min (d.spin_rpm.getD 0 / 1000 * 20) 20) 100 := by
  have hspeed : pyOr d.speed_kmh 120 =
      (if d.speed_kmh.getD 0 = 0 then 120 else d.speed_kmh.getD 0) := by
    cases d.speed_kmh with
    | none => simp [pyOr]
    | some x =>
      by_cases hx : x = 0
      · simp [pyOr, hx]
      · simp [pyOr, hx]
  simp only [wicket_probability, pyOr_zero, hspeed]

/-! ## C10: the trajectory-schema mismatch in the bowling pipeline -/

/-- C10: for every detection list, `track_ball_trajectory` stores its points
only under the `trajectory` key (`points_2d` is absent, `avg_speed` and
`total_frames_with_ball` are present), while
`BowlingAnalyzer.classify_ball_type` reads only `points_2d`; consequently
the yorker/bouncer/full-toss flags of the pipeline are all false for every
video, regardless of the actual trajectory. -/
theorem pipeline_ball_flags_always_false (dets : List Detection) (s : ℝ) :
    (track_ball_trajectory dets).points_2d = none
    ∧ (∃ pts, (track_ball_trajectory dets).trajectory = some pts)
    ∧ (∃ a, (track_ball_trajectory dets).avg_speed = some a)
    ∧ (∃ n, (track_ball_trajectory dets).total_frames_with_ball = some n)
    ∧ BowlingAnalyzer.classify_ball_type (track_ball_trajectory dets) s
        = ⟨false, false, false⟩ :=
  ⟨rfl, ⟨_, rfl⟩, ⟨_, rfl⟩, ⟨_, rfl⟩, rfl⟩

/-! ## C4: the speed formula -/

lemma displacements_length (ps : List TrajPoint) :
    (displacements ps).length = ps.length - 1 := by
  simp [displacements, List.length_zip, List.length_tail]

lemma pyRound1_int_div_ten (q : ℤ) : pyRound1 ((q : ℝ) / 10) = (q : ℝ) / 10 := by
  have h10 : ((q : ℝ) / 10) * 10 = (q : ℝ) := by field_simp
  simp only [pyRound1, h10, Int.floor_intCast, sub_self]
  rw [if_pos (by norm_num : (0 : ℝ) < 1 / 2)]

lemma pyRound1_zero : pyRound1 (0 : ℝ) = 0 := by
  have h := pyRound1_int_div_ten 0
  simpa using h

/-- C4 (amended): `calculate_ball_speed` returns 0 for fewer than 2 points
and for ≥2 coincident points, and otherwise returns the average
consecutive-point pixel displacement converted to m/s via `fps` and
`pixels_per_meter`, to km/h via `× 3.6`, and **rounded to one decimal
place**. -/
theorem calculate_ball_speed_spec (fps ppm : ℚ) (t : BallTraj) :
    ((pointsForSpeed t).length < 2 → calculate_ball_speed fps ppm t = 0)
    ∧ ((∀ p ∈ pointsForSpeed t, ∀ q ∈ pointsForSpeed t, p.x = q.x ∧ p.y = q.y) →
        calculate_ball_speed fps ppm t = 0)
    ∧ (2 ≤ (pointsForSpeed t).length →
        calculate_ball_speed fps ppm t =
          pyRound1 ((displacements (pointsForSpeed t)).sum
            / ((displacements (pointsForSpeed t)).length : ℝ)
            * (fps : ℝ) / (ppm : ℝ) * 3.6)) := by
  have hne : 2 ≤ (pointsForSpeed t).length →
      (displacements (pointsForSpeed t)).isEmpty = false := by
    intro h2
    have hl := displacements_length (pointsForSpeed t)
    rcases hd : displacements (pointsForSpeed t) with _ | ⟨d, ds⟩
    · rw [hd] at hl
      simp at hl
      omega
    · rfl
  refine ⟨?_, ?_, ?_⟩
  · intro h
    simp only [calculate_ball_speed]
    rw [if_pos h]
  · intro hsame
    by_cases h2 : (pointsForSpeed t).length < 2
    · simp only [calculate_ball_speed]
      rw [if_pos h2]
    · push_neg at h2
      have hz : ∀ x ∈ displacements (pointsForSpeed t), x = 0 := by
        intro x hx
        simp only [displacements, List.mem_map] at hx
        obtain ⟨pq, hpq, rfl⟩ := hx
        obtain ⟨hm1, hm2t⟩ := List.of_mem_zip hpq
        obtain ⟨hxx, hyy⟩ := hsame pq.2 (List.mem_of_mem_tail hm2t) pq.1 hm1
        rw [hxx, hyy]
        simp
      have hsum : (displacements (pointsForSpeed t)).sum = 0 := List.sum_eq_zero hz
      simp only [calculate_ball_speed]
      rw [if_neg (not_lt.mpr h2), if_neg (by simp [hne h2]), hsum]
      simp only [zero_div, zero_mul]
      exact pyRound1_zero
  · intro h2
    simp only [calculate_ball_speed]
    rw [if_neg (not_lt.mpr h2), if_neg (by simp [hne h2])]

/-- Witness for C4: the three cases at concrete trajectories. -/
theorem calculate_ball_speed_spec_witness :
    calculate_ball_speed 30 100 (⟨none, none, none, none⟩ : BallTraj) = 0
    ∧ calculate_ball_speed 30 100
        (⟨some [⟨0, 1, 1, 1⟩, ⟨1, 1, 1, 1⟩], none, none, none⟩ : BallTraj) = 0
    ∧ calculate_ball_speed 30 100 twoPtTraj =
        pyRound1 ((displacements (pointsForSpeed twoPtTraj)).sum
          / ((displacements (pointsForSpeed twoPtTraj)).length : ℝ)
          * ((30 : ℚ) : ℝ) / ((100 : ℚ) : ℝ) * 3.6) := by
  refine ⟨(calculate_ball_speed_spec 30 100 _).1 (by norm_num [pointsForSpeed]),
    (calculate_ball_speed_spec 30 100 _).2.1 ?_,
    (calculate_ball_speed_spec 30 100 _).2.2 (by norm_num [pointsForSpeed, twoPtTraj])⟩
  intro p hp q hq
  simp only [pointsForSpeed, List.mem_cons, List.not_mem_nil, or_false] at hp hq
  rcases hp with rfl | rfl <;> rcases hq with rfl | rfl <;> exact ⟨rfl, rfl⟩

lemma speed_two_points_eval : calculate_ball_speed 30 100 twoPtTraj = 3.2 := by
  have hp : pointsForSpeed twoPtTraj = [⟨0, 0, 0, 1⟩, ⟨1, 3, 0, 1⟩] := rfl
  have hd : displacements (pointsForSpeed twoPtTraj) = [(3 : ℝ)] := by
    rw [hp]
    simp only [displacements, List.tail_cons, List.zip_cons_cons, List.zip_nil_right,
      List.map_cons, List.map_nil]
    have hs : Real.sqrt ((9 : ℝ)) = 3 := by
      rw [show (9 : ℝ) = 3 ^ 2 by norm_num]
      exact Real.sqrt_sq (by norm_num)
    norm_num [hs]
  simp only [calculate_ball_speed]
  rw [if_neg (by norm_num [hp]), hd, if_neg (by simp)]
  have harg : (([(3 : ℝ)].sum) / (([(3 : ℝ)].length : ℕ) : ℝ)
      * ((30 : ℚ) : ℝ) / ((100 : ℚ) : ℝ) * 3.6) = 3.24 := by
    push_cast
    norm_num
  rw [harg]
  have hfl : ⌊(3.24 : ℝ) * 10⌋ = 32 := by
    rw [Int.floor_eq_iff]
    constructor <;> norm_num
  simp only [pyRound1, hfl]
  rw [if_pos (by push_cast; norm_num : (3.24 : ℝ) * 10 - ((32 : ℤ) : ℝ) < 1 / 2)]
  push_cast
  norm_num

/-- C4 counterexample: on a two-point trajectory with a 3-pixel displacement
at 30 fps and 100 px/m, the claimed unrounded conversion is
`3 × 30 / 100 × 3.6 = 3.24` km/h, but the function returns the rounded
value `3.2`. -/
theorem ball_speed_rounding_counterexample :
    calculate_ball_speed 30 100 twoPtTraj = 3.2
    ∧ calculate_ball_speed 30 100 twoPtTraj ≠ (3 : ℝ) * 30 / 100 * 3.6 := by
  refine ⟨speed_two_points_eval, ?_⟩
  rw [speed_two_points_eval]
  norm_num

/-! ## C3: the 12-point yorker scenario -/

set_option maxHeartbeats 1000000 in
lemma track_dets12_traj : (track_ball_trajectory dets12).trajectory = some pts12 := by
  norm_num [track_ball_trajectory, sortedFrameKeys, insertKey, dets12, pts12,
    List.filterMap_cons, List.filter_cons, List.foldl_cons, List.foldl_nil]

lemma disp_pts12 : displacements pts12 =
    [(40 : ℝ), 40, 40, 40, 40, 40, 40, 40, 40, 40, 40] := by
  have hs : Real.sqrt ((1600 : ℝ)) = 40 := by
    rw [show (1600 : ℝ) = 40 ^ 2 by norm_num]
    exact Real.sqrt_sq (by norm_num)
  simp only [pts12, displacements, List.tail_cons, List.zip_cons_cons, List.zip_nil_right,
    List.map_cons, List.map_nil]
  norm_num [hs]

/-- C3: on the 12-point constant-height (`y = 0.05`), 40-px-per-frame
trajectory produced by `track_ball_trajectory`, the speed computation at 30
fps and 100 px/m returns 43.2 km/h as the claim states; but
`BowlingAnalyzer.classify_ball_type` — the function the pipeline actually
calls on this dict — returns `is_yorker = false` (all flags false), because
it reads the absent `points_2d` key.  The other implementation in the repository, `ball_tracking.classify_ball_type`, reads either key and
returns `is_yorker = true, is_bouncer = false` on the same trajectory,
confirming the claimed classification is the intended one. -/
theorem yorker_scenario_eval :
    calculate_ball_speed 30 100 (track_ball_trajectory dets12) = 43.2
    ∧ BowlingAnalyzer.classify_ball_type (track_ball_trajectory dets12) 43.2
        = ⟨false, false, false⟩
    ∧ BallTracking.classify_ball_type (track_ball_trajectory dets12) 43.2
        = ⟨true, false, false⟩ := by
  have htraj := track_dets12_traj
  have hp : pointsForSpeed (track_ball_trajectory dets12) = pts12 := by
    simp only [pointsForSpeed, htraj, pts12]
  refine ⟨?_, rfl, ?_⟩
  · simp only [calculate_ball_speed, hp]
    rw [if_neg (by norm_num [pts12]), disp_pts12, if_neg (by simp)]
    have harg : (([(40 : ℝ), 40, 40, 40, 40, 40, 40, 40, 40, 40, 40].sum)
        / (([(40 : ℝ), 40, 40, 40, 40, 40, 40, 40, 40, 40, 40].length : ℕ) : ℝ)
        * ((30 : ℚ) : ℝ) / ((100 : ℚ) : ℝ) * 3.6) = ((432 : ℤ) : ℝ) / 10 := by
      push_cast
      norm_num
    rw [harg, pyRound1_int_div_ten]
    push_cast
    norm_num
  · have h2 : (track_ball_trajectory dets12).points_2d = none := rfl
    have hgp : BallTracking.get_points (track_ball_trajectory dets12) = pts12 := by
      simp only [BallTracking.get_points, h2, htraj, pts12]
    simp only [BallTracking.classify_ball_type, hgp]
    rw [if_neg (by norm_num [pts12]),
      if_pos (by norm_num [pts12, pyMinD, pyMin, min_def, List.foldl_cons, List.foldl_nil])]

end CricV
